import Mathlib

/-!
Verification of the blind-signature issuer backend (`backend/app/app.py`).

The five Flask handlers (`generate_keypair`, `create_sign_session`,
`close_sign_session`, `blind_sign`, `delete_key`) are embedded as pure
functions over an explicit server state.  The persistence layer
(`db_methods`) and the crypto library (`libblindr`) are imported by the
handlers but their code is not part of the handler source; they are
modelled from the specification's interface description (a keyed store
with `store`/`find`/`delete`, and a black-box crypto engine).
-/

/-- A stored keypair row: `constraint_hash → (private_key, public_key)`. -/
structure PermanentEntry where
  private_key : String
  public_key : String
deriving DecidableEq, Repr

/-- A stored session row: `constraint_hash → (private_value, public_value)`. -/
structure TemporaryEntry where
  private_value : String
  public_value : String
deriving DecidableEq, Repr

/-- Modelled from the spec: the persistence engine is a keyed store
`find(constraint_hash) -> Option<Entry>`.  We embed each store as an
association list keyed by the constraint hash; lookup returns the first
matching row. -/
def lookupEntry {β : Type} (h : String) : List (String × β) → Option β
  | [] => none
  | (k, v) :: rest => if k = h then some v else lookupEntry h rest

/-- Modelled from the spec: `delete(constraint_hash) -> bool` removes the
entry if present (idempotent: removing a missing row is a no-op). -/
def removeEntry {β : Type} (h : String) : List (String × β) → List (String × β)
  | [] => []
  | (k, v) :: rest => if k = h then removeEntry h rest else (k, v) :: removeEntry h rest

/-- The server's persistent state: the PermanentStorage and
TemporaryStorage tables, keyed by constraint hash. -/
structure ServerState where
  permanent : List (String × PermanentEntry)
  temporary : List (String × TemporaryEntry)
deriving DecidableEq, Repr

/-- Modelled from the spec: `find_permanent` from `db_methods`. -/
def find_permanent (st : ServerState) (constraint_hash : String) : Option PermanentEntry :=
  lookupEntry constraint_hash st.permanent

/-- Modelled from the spec: `find_temporary` from `db_methods`. -/
def find_temporary (st : ServerState) (constraint_hash : String) : Option TemporaryEntry :=
  lookupEntry constraint_hash st.temporary

/-- Modelled from the spec: `store_permanent` from `db_methods` persists a
`(private_key, public_key)` row under the constraint hash. -/
def store_permanent (st : ServerState) (constraint_hash private_key public_key : String) :
    ServerState :=
  { st with permanent := (constraint_hash, ⟨private_key, public_key⟩) :: st.permanent }

/-- Modelled from the spec: `store_temporary` from `db_methods` persists a
`(private_value, public_value)` row under the constraint hash. -/
def store_temporary (st : ServerState) (constraint_hash private_value public_value : String) :
    ServerState :=
  { st with temporary := (constraint_hash, ⟨private_value, public_value⟩) :: st.temporary }

/-- Modelled from the spec: `delete_permanent` from `db_methods`. -/
def delete_permanent (st : ServerState) (constraint_hash : String) : ServerState :=
  { st with permanent := removeEntry constraint_hash st.permanent }

/-- Modelled from the spec: `delete_temporary` from `db_methods`
(idempotent: deleting a missing session is success, not an error). -/
def delete_temporary (st : ServerState) (constraint_hash : String) : ServerState :=
  { st with temporary := removeEntry constraint_hash st.temporary }

/-- Modelled from the spec: the Crypto Engine (`libblindr`) consumed by the
handlers.  Generation is represented by the pair the engine would return on
its next invocation; `server_sign` and `verify_message_fits_constraint` are
arbitrary black-box functions. -/
structure CryptoEngine where
  server_generate_keypair : String × String
  server_generate_session : String × String
  server_sign : String → String → String → String
  verify_message_fits_constraint : String → String → String → Bool

/-- A JSON field value appearing in a response body. -/
inductive JsonField where
  | str (s : String)
  | bool (b : Bool)
deriving DecidableEq, Repr

/-- An HTTP response: the `jsonify` body (field name/value pairs) and the
status code (200 unless the handler returns an explicit error status). -/
structure HttpResult where
  body : List (String × JsonField)
  status : Nat
deriving DecidableEq, Repr

/-- The outcome of one handler call: the HTTP response, the state after the
call, and whether the engine's generator (`server_generate_keypair` or
`server_generate_session`) respectively the signing transform
(`server_sign`) was invoked during the call. -/
structure OpResult where
  http : HttpResult
  state : ServerState
  generatorInvoked : Bool
  signInvoked : Bool
deriving DecidableEq, Repr

/-- Handler `POST /generate-keypair` from `app.py`: return the existing
public key if a PermanentEntry exists, otherwise generate, store and return
a fresh keypair's public key. -/
def generate_keypair (eng : CryptoEngine) (st : ServerState) (constraint_hash : String) :
    OpResult :=
  match find_permanent st constraint_hash with
  | some permanent_entry =>
      ⟨⟨[("public_key", JsonField.str permanent_entry.public_key)], 200⟩, st, false, false⟩
  | none =>
      let private_key := eng.server_generate_keypair.1
      let public_key := eng.server_generate_keypair.2
      ⟨⟨[("public_key", JsonField.str public_key)], 200⟩,
        store_permanent st constraint_hash private_key public_key, true, false⟩

/-- Handler `POST /create-sign-session` from `app.py`: 404 if no
PermanentEntry; return the existing session's public value if one exists;
otherwise generate, store and return a fresh session's public value. -/
def create_sign_session (eng : CryptoEngine) (st : ServerState) (constraint_hash : String) :
    OpResult :=
  if (find_permanent st constraint_hash).isNone then
    ⟨⟨[("error", JsonField.str "Constraint hash not found")], 404⟩, st, false, false⟩
  else
    match find_temporary st constraint_hash with
    | some temp_entry =>
        ⟨⟨[("public_value", JsonField.str temp_entry.public_value)], 200⟩, st, false, false⟩
    | none =>
        let private_value := eng.server_generate_session.1
        let public_value := eng.server_generate_session.2
        ⟨⟨[("public_value", JsonField.str public_value)], 200⟩,
          store_temporary st constraint_hash private_value public_value, true, false⟩

/-- Handler `POST /close-sign-session` from `app.py`: delete any session
row for the hash and report success unconditionally. -/
def close_sign_session (st : ServerState) (constraint_hash : String) : OpResult :=
  ⟨⟨[("success", JsonField.bool true)], 200⟩, delete_temporary st constraint_hash, false, false⟩

/-- Handler `POST /blind-sign` from `app.py`: check session presence, then
key presence, then the proof; on success sign the blinded message with the
stored private key and session private value. -/
def blind_sign (eng : CryptoEngine) (st : ServerState)
    (constraint_hash blinded_message proof : String) : OpResult :=
  match find_temporary st constraint_hash with
  | none => ⟨⟨[("error", JsonField.str "Session not found")], 404⟩, st, false, false⟩
  | some temporary_entry =>
      match find_permanent st constraint_hash with
      | none => ⟨⟨[("error", JsonField.str "Constraint hash not found")], 404⟩, st, false, false⟩
      | some permanent_entry =>
          if ¬ eng.verify_message_fits_constraint proof blinded_message constraint_hash then
            ⟨⟨[("error", JsonField.str "Verification failed")], 400⟩, st, false, false⟩
          else
            let private_key := permanent_entry.private_key
            let private_value := temporary_entry.private_value
            ⟨⟨[("blinded_signature",
                JsonField.str (eng.server_sign private_key private_value blinded_message))], 200⟩,
              st, false, true⟩

/-- Handler `DELETE /delete-key` from `app.py`: 404 if no PermanentEntry,
otherwise delete the row and report success. -/
def delete_key (st : ServerState) (constraint_hash : String) : OpResult :=
  if (find_permanent st constraint_hash).isNone then
    ⟨⟨[("error", JsonField.str "Constraint hash not found")], 404⟩, st, false, false⟩
  else
    ⟨⟨[("success", JsonField.bool true)], 200⟩, delete_permanent st constraint_hash, false, false⟩

/-! ### Store lemmas -/

theorem lookupEntry_nil {β : Type} (h : String) : lookupEntry h ([] : List (String × β)) = none :=
  rfl

theorem lookupEntry_cons {β : Type} (h k : String) (v : β) (l : List (String × β)) :
    lookupEntry h ((k, v) :: l) = if k = h then some v else lookupEntry h l :=
  rfl

theorem lookupEntry_removeEntry_self {β : Type} (h : String) (l : List (String × β)) :
    lookupEntry h (removeEntry h l) = none := by
  induction l with
  | nil => rfl
  | cons p rest ih =>
      obtain ⟨k, v⟩ := p
      by_cases hk : k = h
      · simp [removeEntry, hk, ih]
      · simp [removeEntry, lookupEntry, hk, ih]

theorem lookupEntry_removeEntry_ne {β : Type} (h h' : String) (hne : h' ≠ h)
    (l : List (String × β)) : lookupEntry h' (removeEntry h l) = lookupEntry h' l := by
  induction l with
  | nil => rfl
  | cons p rest ih =>
      obtain ⟨k, v⟩ := p
      by_cases hk : k = h
      · subst hk
        simp [removeEntry, lookupEntry, Ne.symm hne, ih]
      · by_cases hk' : k = h'
        · subst hk'
          simp [removeEntry, lookupEntry, hne]
        · simp [removeEntry, lookupEntry, hk, hk', ih]

theorem not_mem_keys_of_lookupEntry_eq_none {β : Type} (h : String) (l : List (String × β))
    (hl : lookupEntry h l = none) : h ∉ l.map Prod.fst := by
  induction l with
  | nil => simp
  | cons p rest ih =>
      obtain ⟨k, v⟩ := p
      rw [lookupEntry_cons] at hl
      by_cases hk : k = h
      · simp [hk] at hl
      · simp only [if_neg hk] at hl
        simp [hk, ih hl]
        exact fun hkh => hk hkh.symm

/-! ### Concrete fixtures used by the witness theorems -/

/-- A deterministic test engine: the proof string decides verification. -/
def testEngine : CryptoEngine where
  server_generate_keypair := ("sk_gen", "pk_gen")
  server_generate_session := ("sv_gen", "pv_gen")
  server_sign := fun a b c => a ++ "|" ++ b ++ "|" ++ c
  verify_message_fits_constraint := fun p _ _ => p == "good"

/-- A state with both a keypair and a session stored for hash `abc`. -/
def st1 : ServerState :=
  ⟨[("abc", ⟨"sk1", "pk1"⟩)], [("abc", ⟨"sv1", "pv1"⟩)]⟩

/-- A state with a keypair but no session for hash `abc`. -/
def st2 : ServerState :=
  ⟨[("abc", ⟨"sk1", "pk1"⟩)], []⟩

/-- The empty state. -/
def st0 : ServerState := ⟨[], []⟩

/-! ### Claims -/

/-- C1: when a PermanentEntry and a TemporaryEntry both exist for
`constraint_hash` and the proof verifies, blind-sign succeeds (status 200)
with `blinded_signature` equal to `sign` applied to the stored
`private_key`, the stored `private_value` and the request's
`blinded_message`; the state is unchanged. -/
theorem blind_sign_success (eng : CryptoEngine) (st : ServerState)
    (constraint_hash blinded_message proof : String)
    (pe : PermanentEntry) (te : TemporaryEntry)
    (hpe : find_permanent st constraint_hash = some pe)
    (hte : find_temporary st constraint_hash = some te)
    (hv : eng.verify_message_fits_constraint proof blinded_message constraint_hash = true) :
    blind_sign eng st constraint_hash blinded_message proof =
      ⟨⟨[("blinded_signature",
          JsonField.str (eng.server_sign pe.private_key te.private_value blinded_message))],
        200⟩, st, false, true⟩ := by
  simp [blind_sign, hpe, hte, hv]

/-- Witness for C1 on a concrete state and engine. -/
theorem blind_sign_success_witness :
    blind_sign testEngine st1 "abc" "msg" "good" =
      ⟨⟨[("blinded_signature", JsonField.str "sk1|sv1|msg")], 200⟩, st1, false, true⟩ :=
  blind_sign_success testEngine st1 "abc" "msg" "good" ⟨"sk1", "pk1"⟩ ⟨"sv1", "pv1"⟩
    (by decide) (by decide) (by decide)

/-- C2: blind-sign checks session presence, then key presence, then proof
verification, so the error precedence is SessionNotFound over
ConstraintNotFound over VerificationFailed; in particular a missing
TemporaryEntry yields 404 "Session not found" regardless of the
PermanentEntry. -/
theorem blind_sign_error_precedence (eng : CryptoEngine) (st : ServerState)
    (constraint_hash blinded_message proof : String) :
    (find_temporary st constraint_hash = none →
      blind_sign eng st constraint_hash blinded_message proof =
        ⟨⟨[("error", JsonField.str "Session not found")], 404⟩, st, false, false⟩) ∧
    (∀ te, find_temporary st constraint_hash = some te →
      find_permanent st constraint_hash = none →
      blind_sign eng st constraint_hash blinded_message proof =
        ⟨⟨[("error", JsonField.str "Constraint hash not found")], 404⟩, st, false, false⟩) ∧
    (∀ te pe, find_temporary st constraint_hash = some te →
      find_permanent st constraint_hash = some pe →
      eng.verify_message_fits_constraint proof blinded_message constraint_hash = false →
      blind_sign eng st constraint_hash blinded_message proof =
        ⟨⟨[("error", JsonField.str "Verification failed")], 400⟩, st, false, false⟩) := by
  refine ⟨fun hte => ?_, fun te hte hpe => ?_, fun te pe hte hpe hv => ?_⟩
  · simp [blind_sign, hte]
  · simp [blind_sign, hte, hpe]
  · simp [blind_sign, hte, hpe, hv]

/-- Witness for C2: a state with a PermanentEntry but no TemporaryEntry
still produces 404 "Session not found". -/
theorem blind_sign_error_precedence_witness :
    find_permanent st2 "abc" = some ⟨"sk1", "pk1"⟩ ∧
    blind_sign testEngine st2 "abc" "msg" "good" =
      ⟨⟨[("error", JsonField.str "Session not found")], 404⟩, st2, false, false⟩ :=
  ⟨by decide, (blind_sign_error_precedence testEngine st2 "abc" "msg" "good").1 (by decide)⟩

/-- C3: across all five operations, every response body is built only from
public artifacts: a stored or freshly generated `public_key` or
`public_value`, a success flag, one of the fixed error messages, or a
`blinded_signature` produced by `server_sign`; no response field carries a
stored `private_key` or `private_value`. -/
theorem responses_only_public_artifacts (eng : CryptoEngine) (st : ServerState)
    (constraint_hash blinded_message proof : String) :
    (∃ pk, (generate_keypair eng st constraint_hash).http.body =
        [("public_key", JsonField.str pk)] ∧
      ((∃ pe, find_permanent st constraint_hash = some pe ∧ pk = pe.public_key) ∨
        pk = eng.server_generate_keypair.2)) ∧
    ((create_sign_session eng st constraint_hash).http.body =
        [("error", JsonField.str "Constraint hash not found")] ∨
      ∃ pv, (create_sign_session eng st constraint_hash).http.body =
          [("public_value", JsonField.str pv)] ∧
        ((∃ te, find_temporary st constraint_hash = some te ∧ pv = te.public_value) ∨
          pv = eng.server_generate_session.2)) ∧
    ((close_sign_session st constraint_hash).http.body = [("success", JsonField.bool true)]) ∧
    ((blind_sign eng st constraint_hash blinded_message proof).http.body =
        [("error", JsonField.str "Session not found")] ∨
      (blind_sign eng st constraint_hash blinded_message proof).http.body =
        [("error", JsonField.str "Constraint hash not found")] ∨
      (blind_sign eng st constraint_hash blinded_message proof).http.body =
        [("error", JsonField.str "Verification failed")] ∨
      ∃ pe te, find_permanent st constraint_hash = some pe ∧
        find_temporary st constraint_hash = some te ∧
        (blind_sign eng st constraint_hash blinded_message proof).http.body =
          [("blinded_signature",
            JsonField.str (eng.server_sign pe.private_key te.private_value blinded_message))]) ∧
    ((delete_key st constraint_hash).http.body =
        [("error", JsonField.str "Constraint hash not found")] ∨
      (delete_key st constraint_hash).http.body = [("success", JsonField.bool true)]) := by
  refine ⟨?_, ?_, rfl, ?_, ?_⟩
  · cases hpe : find_permanent st constraint_hash with
    | none => exact ⟨eng.server_generate_keypair.2, by simp [generate_keypair, hpe], Or.inr rfl⟩
    | some pe =>
        exact ⟨pe.public_key, by simp [generate_keypair, hpe], Or.inl ⟨pe, rfl, rfl⟩⟩
  · cases hpe : find_permanent st constraint_hash with
    | none => exact Or.inl (by simp [create_sign_session, hpe])
    | some pe =>
        cases hte : find_temporary st constraint_hash with
        | none =>
            exact Or.inr ⟨eng.server_generate_session.2,
              by simp [create_sign_session, hpe, hte], Or.inr rfl⟩
        | some te =>
            exact Or.inr ⟨te.public_value,
              by simp [create_sign_session, hpe, hte], Or.inl ⟨te, rfl, rfl⟩⟩
  · cases hte : find_temporary st constraint_hash with
    | none => exact Or.inl (by simp [blind_sign, hte])
    | some te =>
        cases hpe : find_permanent st constraint_hash with
        | none => exact Or.inr (Or.inl (by simp [blind_sign, hte, hpe]))
        | some pe =>
            cases hv : eng.verify_message_fits_constraint proof blinded_message constraint_hash with
            | false => exact Or.inr (Or.inr (Or.inl (by simp [blind_sign, hte, hpe, hv])))
            | true =>
                exact Or.inr (Or.inr (Or.inr ⟨pe, te, rfl, rfl,
                  by simp [blind_sign, hte, hpe, hv]⟩))
  · cases hpe : find_permanent st constraint_hash with
    | none => exact Or.inl (by simp [delete_key, hpe])
    | some pe => exact Or.inr (by simp [delete_key, hpe])

/-- C4: generate-keypair is idempotent.  If a PermanentEntry already exists
the call returns its `public_key`, does not invoke the generator and leaves
the state unchanged; and for any two successive calls on the same hash the
bodies agree and the second call never invokes the generator, so the
generator runs at most once per hash. -/
theorem generate_keypair_idempotent (eng1 eng2 : CryptoEngine) (st : ServerState)
    (constraint_hash : String) :
    (∀ pe, find_permanent st constraint_hash = some pe →
      generate_keypair eng1 st constraint_hash =
        ⟨⟨[("public_key", JsonField.str pe.public_key)], 200⟩, st, false, false⟩) ∧
    (generate_keypair eng2 (generate_keypair eng1 st constraint_hash).state
        constraint_hash).http.body =
      (generate_keypair eng1 st constraint_hash).http.body ∧
    (generate_keypair eng2 (generate_keypair eng1 st constraint_hash).state
        constraint_hash).generatorInvoked = false := by
  refine ⟨fun pe hpe => by simp [generate_keypair, hpe], ?_, ?_⟩ <;>
  · cases hpe : find_permanent st constraint_hash with
    | some pe => simp [generate_keypair, hpe]
    | none =>
        have hpe' : lookupEntry constraint_hash st.permanent = none := hpe
        simp [generate_keypair, find_permanent, hpe', store_permanent, lookupEntry]

/-- Witness for C4 on a concrete state whose PermanentEntry exists. -/
theorem generate_keypair_idempotent_witness :
    generate_keypair testEngine st1 "abc" =
      ⟨⟨[("public_key", JsonField.str "pk1")], 200⟩, st1, false, false⟩ ∧
    (generate_keypair testEngine (generate_keypair testEngine st1 "abc").state
        "abc").http.body = (generate_keypair testEngine st1 "abc").http.body ∧
    (generate_keypair testEngine (generate_keypair testEngine st1 "abc").state
        "abc").generatorInvoked = false :=
  ⟨(generate_keypair_idempotent testEngine testEngine st1 "abc").1 ⟨"sk1", "pk1"⟩ (by decide),
   (generate_keypair_idempotent testEngine testEngine st1 "abc").2.1,
   (generate_keypair_idempotent testEngine testEngine st1 "abc").2.2⟩

/-- C5: create-sign-session is idempotent.  With the key present and a
TemporaryEntry already stored, the call returns its `public_value`, does
not generate a new session and leaves the state unchanged; two successive
calls with the key present return the same body; and the operation
preserves uniqueness of session rows per hash. -/
theorem create_sign_session_idempotent (eng1 eng2 : CryptoEngine) (st : ServerState)
    (constraint_hash : String) :
    (∀ pe te, find_permanent st constraint_hash = some pe →
      find_temporary st constraint_hash = some te →
      create_sign_session eng1 st constraint_hash =
        ⟨⟨[("public_value", JsonField.str te.public_value)], 200⟩, st, false, false⟩) ∧
    (∀ pe, find_permanent st constraint_hash = some pe →
      (create_sign_session eng2 (create_sign_session eng1 st constraint_hash).state
          constraint_hash).http.body =
        (create_sign_session eng1 st constraint_hash).http.body) ∧
    ((st.temporary.map Prod.fst).Nodup →
      ((create_sign_session eng1 st constraint_hash).state.temporary.map Prod.fst).Nodup) := by
  refine ⟨fun pe te hpe hte => by simp [create_sign_session, hpe, hte], fun pe hpe => ?_, ?_⟩
  · cases hte : find_temporary st constraint_hash with
    | some te => simp [create_sign_session, hpe, hte]
    | none =>
        have hpe' : lookupEntry constraint_hash st.permanent = some pe := hpe
        have hte' : lookupEntry constraint_hash st.temporary = none := hte
        simp [create_sign_session, find_permanent, find_temporary, hpe', hte',
          store_temporary, lookupEntry]
  · intro hnd
    cases hpe : find_permanent st constraint_hash with
    | none => simpa [create_sign_session, hpe] using hnd
    | some pe =>
        cases hte : find_temporary st constraint_hash with
        | some te => simpa [create_sign_session, hpe, hte] using hnd
        | none =>
            have hmem : constraint_hash ∉ st.temporary.map Prod.fst :=
              not_mem_keys_of_lookupEntry_eq_none constraint_hash st.temporary hte
            simp [create_sign_session, hpe, hte, store_temporary, hmem, hnd]

/-- Witness for C5 on a concrete state with key and session present. -/
theorem create_sign_session_idempotent_witness :
    create_sign_session testEngine st1 "abc" =
      ⟨⟨[("public_value", JsonField.str "pv1")], 200⟩, st1, false, false⟩ ∧
    (create_sign_session testEngine (create_sign_session testEngine st1 "abc").state
        "abc").http.body = (create_sign_session testEngine st1 "abc").http.body ∧
    ((create_sign_session testEngine st1 "abc").state.temporary.map Prod.fst).Nodup :=
  ⟨(create_sign_session_idempotent testEngine testEngine st1 "abc").1
      ⟨"sk1", "pk1"⟩ ⟨"sv1", "pv1"⟩ (by decide) (by decide),
   (create_sign_session_idempotent testEngine testEngine st1 "abc").2.1
      ⟨"sk1", "pk1"⟩ (by decide),
   (create_sign_session_idempotent testEngine testEngine st1 "abc").2.2 (by decide)⟩

/-- C6: when no PermanentEntry exists for a hash, create-sign-session
fails with 404 "Constraint hash not found" and creates no TemporaryEntry
(the state is unchanged); moreover no operation performed on a different
hash can create a PermanentEntry for this hash, so the failure persists
regardless of call order elsewhere. -/
theorem create_sign_session_no_key (eng : CryptoEngine) (st : ServerState)
    (constraint_hash other_hash blinded_message proof : String)
    (hnone : find_permanent st constraint_hash = none) :
    create_sign_session eng st constraint_hash =
      ⟨⟨[("error", JsonField.str "Constraint hash not found")], 404⟩, st, false, false⟩ ∧
    (other_hash ≠ constraint_hash →
      find_permanent (generate_keypair eng st other_hash).state constraint_hash = none ∧
      find_permanent (create_sign_session eng st other_hash).state constraint_hash = none ∧
      find_permanent (close_sign_session st other_hash).state constraint_hash = none ∧
      find_permanent (blind_sign eng st other_hash blinded_message proof).state
        constraint_hash = none ∧
      find_permanent (delete_key st other_hash).state constraint_hash = none) := by
  constructor
  · simp [create_sign_session, hnone]
  · intro hne
    refine ⟨?_, ?_, ?_, ?_, ?_⟩
    · cases hpe : find_permanent st other_hash with
      | some pe => simpa [generate_keypair, hpe] using hnone
      | none =>
          simp only [generate_keypair, hpe]
          simpa [find_permanent, store_permanent, lookupEntry, hne] using hnone
    · cases hpe : find_permanent st other_hash with
      | none => simpa [create_sign_session, hpe] using hnone
      | some pe =>
          cases hte : find_temporary st other_hash with
          | some te => simpa [create_sign_session, hpe, hte] using hnone
          | none =>
              have hte' : lookupEntry other_hash st.temporary = none := hte
              simp only [create_sign_session, hpe]
              simpa [find_permanent, find_temporary, store_temporary, hte'] using hnone
    · simpa [close_sign_session, delete_temporary, find_permanent] using hnone
    · cases hte : find_temporary st other_hash with
      | none => simpa [blind_sign, hte] using hnone
      | some te =>
          cases hpe : find_permanent st other_hash with
          | none => simpa [blind_sign, hte, hpe] using hnone
          | some pe =>
              cases hv : eng.verify_message_fits_constraint proof blinded_message other_hash with
              | false => simpa [blind_sign, hte, hpe, hv] using hnone
              | true => simpa [blind_sign, hte, hpe, hv] using hnone
    · cases hpe : find_permanent st other_hash with
      | none => simpa [delete_key, hpe] using hnone
      | some pe =>
          simp only [delete_key, hpe]
          have : lookupEntry constraint_hash (removeEntry other_hash st.permanent) =
              lookupEntry constraint_hash st.permanent :=
            lookupEntry_removeEntry_ne other_hash constraint_hash (Ne.symm hne) st.permanent
          simpa [find_permanent, delete_permanent, this, Option.isNone] using hnone

/-- Witness for C6 on the empty state. -/
theorem create_sign_session_no_key_witness :
    create_sign_session testEngine st0 "abc" =
      ⟨⟨[("error", JsonField.str "Constraint hash not found")], 404⟩, st0, false, false⟩ ∧
    find_permanent (close_sign_session st0 "xyz").state "abc" = none :=
  ⟨(create_sign_session_no_key testEngine st0 "abc" "xyz" "msg" "good" (by decide)).1,
   ((create_sign_session_no_key testEngine st0 "abc" "xyz" "msg" "good" (by decide)).2
      (by decide)).2.2.1⟩

/-- C7: with both entries present but a failing proof, blind-sign returns
400 "Verification failed", does not invoke the signing transform, and
leaves the state unchanged. -/
theorem blind_sign_verification_failed (eng : CryptoEngine) (st : ServerState)
    (constraint_hash blinded_message proof : String)
    (pe : PermanentEntry) (te : TemporaryEntry)
    (hpe : find_permanent st constraint_hash = some pe)
    (hte : find_temporary st constraint_hash = some te)
    (hv : eng.verify_message_fits_constraint proof blinded_message constraint_hash = false) :
    blind_sign eng st constraint_hash blinded_message proof =
      ⟨⟨[("error", JsonField.str "Verification failed")], 400⟩, st, false, false⟩ := by
  simp [blind_sign, hpe, hte, hv]

/-- Witness for C7: a bad proof on a state with key and session present. -/
theorem blind_sign_verification_failed_witness :
    blind_sign testEngine st1 "abc" "msg" "bad" =
      ⟨⟨[("error", JsonField.str "Verification failed")], 400⟩, st1, false, false⟩ :=
  blind_sign_verification_failed testEngine st1 "abc" "msg" "bad" ⟨"sk1", "pk1"⟩
    ⟨"sv1", "pv1"⟩ (by decide) (by decide) (by decide)

/-- C8: an existing TemporaryEntry is removed or altered only by
close-sign-session.  Blind-sign never mutates the state (so a successful
sign leaves the session intact and reusable), delete-key leaves the
temporary store untouched (no cascade delete), and every operation other
than close-sign-session — on this or any other hash — preserves the stored
session row. -/
theorem session_preserved_except_close (eng : CryptoEngine) (st : ServerState)
    (constraint_hash other_hash blinded_message proof : String) (te : TemporaryEntry)
    (hte : find_temporary st constraint_hash = some te) :
    (blind_sign eng st constraint_hash blinded_message proof).state = st ∧
    (delete_key st other_hash).state.temporary = st.temporary ∧
    find_temporary (generate_keypair eng st other_hash).state constraint_hash = some te ∧
    find_temporary (create_sign_session eng st other_hash).state constraint_hash = some te ∧
    find_temporary (blind_sign eng st other_hash blinded_message proof).state
      constraint_hash = some te ∧
    find_temporary (delete_key st other_hash).state constraint_hash = some te := by
  have hblind : ∀ h, (blind_sign eng st h blinded_message proof).state = st := by
    intro h
    cases hte' : find_temporary st h with
    | none => simp [blind_sign, hte']
    | some te' =>
        cases hpe : find_permanent st h with
        | none => simp [blind_sign, hte', hpe]
        | some pe =>
            cases hv : eng.verify_message_fits_constraint proof blinded_message h with
            | false => simp [blind_sign, hte', hpe, hv]
            | true => simp [blind_sign, hte', hpe, hv]
  have hdel : (delete_key st other_hash).state.temporary = st.temporary := by
    cases hpe : find_permanent st other_hash with
    | none => simp [delete_key, hpe]
    | some pe => simp [delete_key, hpe, delete_permanent]
  refine ⟨hblind constraint_hash, hdel, ?_, ?_, ?_, ?_⟩
  · cases hpe : find_permanent st other_hash with
    | some pe => simpa [generate_keypair, hpe] using hte
    | none => simpa [generate_keypair, hpe, store_permanent, find_temporary] using hte
  · cases hpe : find_permanent st other_hash with
    | none => simpa [create_sign_session, hpe] using hte
    | some pe =>
        cases hte2 : find_temporary st other_hash with
        | some te2 => simpa [create_sign_session, hpe, hte2] using hte
        | none =>
            have hne : other_hash ≠ constraint_hash := by
              intro heq
              rw [heq] at hte2
              exact Option.noConfusion (hte.symm.trans hte2)
            have hte2' : lookupEntry other_hash st.temporary = none := hte2
            simp only [create_sign_session, hpe]
            simpa [find_temporary, store_temporary, lookupEntry, hte2', hne] using hte
  · rw [hblind other_hash]
    exact hte
  · show lookupEntry constraint_hash (delete_key st other_hash).state.temporary = some te
    rw [hdel]
    exact hte

/-- Witness for C8 on a concrete state with a stored session. -/
theorem session_preserved_except_close_witness :
    (blind_sign testEngine st1 "abc" "msg" "good").state = st1 ∧
    (delete_key st1 "abc").state.temporary = st1.temporary ∧
    find_temporary (delete_key st1 "abc").state "abc" = some ⟨"sv1", "pv1"⟩ :=
  ⟨(session_preserved_except_close testEngine st1 "abc" "abc" "msg" "good"
      ⟨"sv1", "pv1"⟩ (by decide)).1,
   (session_preserved_except_close testEngine st1 "abc" "abc" "msg" "good"
      ⟨"sv1", "pv1"⟩ (by decide)).2.1,
   (session_preserved_except_close testEngine st1 "abc" "abc" "msg" "good"
      ⟨"sv1", "pv1"⟩ (by decide)).2.2.2.2.2⟩

/-- C9: delete-key on an absent hash fails with 404 "Constraint hash not
found" and changes nothing; on a present hash it removes the PermanentEntry
(leaving the temporary store untouched) and reports success. -/
theorem delete_key_spec (st : ServerState) (constraint_hash : String) :
    (find_permanent st constraint_hash = none →
      delete_key st constraint_hash =
        ⟨⟨[("error", JsonField.str "Constraint hash not found")], 404⟩, st, false, false⟩) ∧
    (∀ pe, find_permanent st constraint_hash = some pe →
      (delete_key st constraint_hash).http = ⟨[("success", JsonField.bool true)], 200⟩ ∧
      find_permanent (delete_key st constraint_hash).state constraint_hash = none ∧
      (delete_key st constraint_hash).state.temporary = st.temporary) := by
  constructor
  · intro hnone
    simp [delete_key, hnone]
  · intro pe hpe
    refine ⟨by simp [delete_key, hpe], ?_, by simp [delete_key, hpe, delete_permanent]⟩
    simp only [delete_key, hpe]
    simpa [find_permanent, delete_permanent] using
      lookupEntry_removeEntry_self constraint_hash st.permanent

/-- Witness for C9: deletion fails on the empty state and succeeds on a
state holding the key. -/
theorem delete_key_spec_witness :
    delete_key st0 "abc" =
      ⟨⟨[("error", JsonField.str "Constraint hash not found")], 404⟩, st0, false, false⟩ ∧
    (delete_key st1 "abc").http = ⟨[("success", JsonField.bool true)], 200⟩ ∧
    find_permanent (delete_key st1 "abc").state "abc" = none :=
  ⟨(delete_key_spec st0 "abc").1 (by decide),
   ((delete_key_spec st1 "abc").2 ⟨"sk1", "pk1"⟩ (by decide)).1,
   ((delete_key_spec st1 "abc").2 ⟨"sk1", "pk1"⟩ (by decide)).2.1⟩

/-- C10: close-sign-session always reports success with status 200 in
every state — including when no session exists — and afterwards no
TemporaryEntry remains for the hash; the permanent store is untouched. -/
theorem close_sign_session_always_succeeds (st : ServerState) (constraint_hash : String) :
    (close_sign_session st constraint_hash).http = ⟨[("success", JsonField.bool true)], 200⟩ ∧
    find_temporary (close_sign_session st constraint_hash).state constraint_hash = none ∧
    (close_sign_session st constraint_hash).state.permanent = st.permanent := by
  refine ⟨rfl, ?_, rfl⟩
  simpa [close_sign_session, delete_temporary, find_temporary] using
    lookupEntry_removeEntry_self constraint_hash st.temporary
